import Mathlib

/-!
Verification of the wasefire board event and peripheral-abstraction layer.

The definitions below are a shallow embedding of the Rust sources:
- `crates/board/src/usb/serial.rs` — the USB serial driver (`Serial`,
  `WithSerial`, `Unsupported`);
- `crates/runner-host/src/board/rng.rs` and
  `crates/runner-nordic/src/tasks/rng.rs` — the RNG capability;
- `crates/runner-nordic/src/main.rs` — the GPIOTE and timer interrupt
  handlers.

External collaborators (the `usbd_serial` transport, the entropy sources,
the `Events` queue living in a file outside the visible sources) are
modelled by explicit oracles or, where the repository file is missing,
from the specification's words (marked in the doc comments).
-/

namespace Wasefire

/-- The board error type `crate::Error`, as used by `serial.rs`:
`Error::User` (capability absent, recoverable) and `Error::World`
(environment/transport fault). -/
inductive Error where
  | User
  | World
deriving DecidableEq, Repr

namespace UsbSerial

/-- `usb::serial::Event` from `serial.rs`: a USB serial event. -/
inductive Event where
  | Read
  | Write
deriving DecidableEq, Repr

/-- The `usb_device::UsbError` values distinguished by `serial.rs`:
`WouldBlock` is matched explicitly, every other fault is handled
uniformly and is collapsed into `Other`. -/
inductive UsbError where
  | WouldBlock
  | Other
deriving DecidableEq, Repr

/-- Snapshot of the external `usbd_serial::SerialPort` transport at the
time of a call: the DTR flow-control line and the results the transport
would return for `read`, `write` and `flush`.  The transport itself is
an external collaborator; only its narrow surface is modelled. -/
structure Port where
  dtr : Bool
  readResult : Except UsbError Nat
  writeResult : Except UsbError Nat
  flushResult : Except UsbError Unit
deriving Repr

/-- Transport operations invoked by the driver, used to record which
calls a capability operation makes on the port. -/
inductive PortCall where
  | dtrCall
  | readCall
  | writeCall
  | flushCall
deriving DecidableEq, Repr

/-- `Serial` from `serial.rs`: the driver state wrapping a `SerialPort`
with the two subscription flags. -/
structure Serial where
  port : Port
  read_enabled : Bool
  write_enabled : Bool
deriving Repr

/-- `Serial::new`: both subscription flags start false. -/
def Serial.new (port : Port) : Serial :=
  { port := port, read_enabled := false, write_enabled := false }

/-- `Serial::tick(polled, push)`: emits `Read` if `read_enabled && polled`,
then `Write` if `write_enabled && port.dtr()`.  The `push` closure is
embedded as the returned list of events, in push order; the driver state
is returned unchanged (the body assigns no field). -/
def Serial.tick (s : Serial) (polled : Bool) : List Event × Serial :=
  (((if s.read_enabled && polled then [Event.Read] else []) ++
    (if s.write_enabled && s.port.dtr then [Event.Write] else [])), s)

/-- `Serial::set(event, enabled)`: sets the flag named by `event`. -/
def Serial.set (s : Serial) (event : Event) (enabled : Bool) : Serial :=
  match event with
  | Event.Read => { s with read_enabled := enabled }
  | Event.Write => { s with write_enabled := enabled }

/-! The `Unsupported` implementation of `Api` from `serial.rs`: every
operation returns `Err(Error::User)`.  Buffers are embedded by their
length (`read`) or contents (`write`); the results do not depend on
them. -/

def Unsupported.read (_outputLen : Nat) : Except Error Nat :=
  .error .User

def Unsupported.write (_input : List Nat) : Except Error Nat :=
  .error .User

def Unsupported.flush : Except Error Unit :=
  .error .User

def Unsupported.enable (_event : Event) : Except Error Unit :=
  .error .User

def Unsupported.disable (_event : Event) : Except Error Unit :=
  .error .User

/-! The `WithSerial<T>` implementation of `Api` from `serial.rs`.  Each
operation acts on the `Serial` reached through `with_serial`.  The
external transport may advance its own state during the call, which the
embedding makes explicit as the `p'` parameter: the returned driver
state carries `p'` as its port, and its flags are whatever the operation
makes of the old flags.  Each operation also returns the list of
transport calls it performed, in order. -/

/-- `<WithSerial<T> as Api>::read`: delegates to `port.read`;
`WouldBlock` becomes `Ok(0)`, other faults become `Err(Error::World)`. -/
def WithSerial.read (s : Serial) (_outputLen : Nat) (p' : Port) :
    Except Error Nat × Serial × List PortCall :=
  match s.port.readResult with
  | .ok len => (.ok len, { s with port := p' }, [.readCall])
  | .error .WouldBlock => (.ok 0, { s with port := p' }, [.readCall])
  | .error .Other => (.error .World, { s with port := p' }, [.readCall])

/-- `<WithSerial<T> as Api>::write`: first checks `port.dtr()`; if the
data terminal is not ready it returns `Ok(0)` without calling
`port.write`.  Otherwise it delegates, with `WouldBlock` becoming
`Ok(0)` and other faults `Err(Error::World)`. -/
def WithSerial.write (s : Serial) (_input : List Nat) (p' : Port) :
    Except Error Nat × Serial × List PortCall :=
  if !s.port.dtr then
    (.ok 0, { s with port := p' }, [.dtrCall])
  else
    match s.port.writeResult with
    | .ok len => (.ok len, { s with port := p' }, [.dtrCall, .writeCall])
    | .error .WouldBlock => (.ok 0, { s with port := p' }, [.dtrCall, .writeCall])
    | .error .Other => (.error .World, { s with port := p' }, [.dtrCall, .writeCall])

/-- `<WithSerial<T> as Api>::flush`: delegates to `port.flush`; any
fault becomes `Err(Error::World)`. -/
def WithSerial.flush (s : Serial) (p' : Port) :
    Except Error Unit × Serial × List PortCall :=
  match s.port.flushResult with
  | .ok () => (.ok (), { s with port := p' }, [.flushCall])
  | .error _ => (.error .World, { s with port := p' }, [.flushCall])

/-- `<WithSerial<T> as Api>::enable`: `serial.set(event, true)`, then
`Ok(())`. -/
def WithSerial.enable (s : Serial) (event : Event) :
    Except Error Unit × Serial :=
  (.ok (), s.set event true)

/-- `<WithSerial<T> as Api>::disable`: `serial.set(event, false)`, then
`Ok(())`. -/
def WithSerial.disable (s : Serial) (event : Event) :
    Except Error Unit × Serial :=
  (.ok (), s.set event false)

/-- One transition of the serial driver state: either the board code
calls `Serial::set` (through `enable`/`disable`), or a capability
operation or poll runs (none of which assigns a flag, so only the
port component may move), or the external transport state changes on
its own (DTR toggles, data arrives).  Both latter cases are covered by
the arbitrary port replacement `portStep`. -/
inductive Step : Serial → Serial → Prop where
  | setStep (s : Serial) (e : Event) (b : Bool) : Step s (s.set e b)
  | portStep (s : Serial) (p : Port) : Step s { s with port := p }

/-- A driver state is reachable when it arises from `Serial::new` on
some initial transport state by a finite sequence of steps. -/
def Reachable (s : Serial) : Prop :=
  ∃ p₀ : Port, Relation.ReflTransGen Step (Serial.new p₀) s

/-- A concrete transport snapshot with DTR deasserted. -/
def quietPort : Port :=
  { dtr := false, readResult := .ok 0, writeResult := .ok 0, flushResult := .ok () }

/-- A concrete transport snapshot with DTR asserted. -/
def readyPort : Port :=
  { dtr := true, readResult := .ok 0, writeResult := .ok 0, flushResult := .ok () }

/-- A concrete transport snapshot reporting `WouldBlock` on both read
and write. -/
def blockedPort : Port :=
  { dtr := true, readResult := .error .WouldBlock, writeResult := .error .WouldBlock,
    flushResult := .ok () }

/-- An enable/disable call sequence item: the event named and the value
set (`true` for `enable`, `false` for `disable`). -/
abbrev SetCall := Event × Bool

/-- Runs a sequence of enable/disable calls through `Serial::set`, in
order. -/
def applyCalls (s : Serial) (calls : List SetCall) : Serial :=
  calls.foldl (fun s c => s.set c.1 c.2) s

/-- Specification-side helper: the value of the last call in the
sequence naming the given event, if any. -/
def lastSetting (e : Event) : List SetCall → Option Bool
  | [] => none
  | c :: rest =>
    match lastSetting e rest with
    | some b => some b
    | none => if c.1 = e then some c.2 else none

end UsbSerial

/-- Modelled from the spec: the top-level `Event` enum of the board API
crate (its defining file is not among the visible sources; the spec
gives the taxonomy `{Button{index}, Timer{index}, Serial(SerialEvent)}`
and the visible handlers construct button events carrying the button
index and pressed level, and timer events carrying the timer index). -/
inductive BoardEvent where
  | Button (button : Nat) (pressed : Bool)
  | Timer (timer : Nat)
  | Serial (event : UsbSerial.Event)
deriving DecidableEq, Repr

/-- Modelled from the spec: the `Events` queue of the nordic runner
(`tasks::Events`, whose file is not among the visible sources): an
ordered FIFO sequence of events; producers append, the consumer pops
from the front in push order. -/
abbrev Events := List BoardEvent

/-- Modelled from the spec: `Events::push` appends at the back. -/
def Events.push (q : Events) (e : BoardEvent) : Events :=
  q ++ [e]

/-- Modelled from the spec: popping takes the front event, in FIFO
order. -/
def Events.pop (q : Events) : Option (BoardEvent × Events) :=
  match q with
  | [] => none
  | e :: rest => some (e, rest)

/-- The `gpiote` interrupt handler of `runner-nordic/src/main.rs`:
within one critical section, it walks the four buttons in index order,
and for each whose GPIOTE channel reports a triggered event it pushes a
button event carrying the index and the pin level; the hardware inputs
are the `triggered` and `pressed` oracles. -/
def gpioteHandler (triggered pressed : Fin 4 → Bool) (q : Events) : Events :=
  (List.finRange 4).foldl
    (fun q i =>
      if triggered i then q.push (BoardEvent.Button i.val (pressed i)) else q)
    q

/-- The `timer` interrupt handler of `runner-nordic/src/main.rs`: pushes
one timer event carrying the timer index. -/
def timerHandler (t : Nat) (q : Events) : Events :=
  q.push (BoardEvent.Timer t)

/-- `rng::Api::fill_bytes` of the host runner
(`runner-host/src/board/rng.rs`): calls `rand::thread_rng().fill_bytes`,
which per its contract fills the whole buffer from the host CSPRNG
(embedded as the `entropy` oracle), then returns `Ok(())`. The buffer is
embedded by its length; the filled buffer is returned alongside. -/
def hostFillBytes (entropy : Nat → Nat) (bufLen : Nat) :
    Except Error (List Nat) :=
  .ok ((List.range bufLen).map entropy)

/-- `rng::Api::fill_bytes` of the nordic runner
(`runner-nordic/src/tasks/rng.rs`): inside a critical section calls
`rng.random(buffer)`, which per the HAL contract fills the whole buffer
from the TRNG (embedded as the `entropy` oracle), then returns
`Ok(())`. -/
def nordicFillBytes (entropy : Nat → Nat) (bufLen : Nat) :
    Except Error (List Nat) :=
  .ok ((List.range bufLen).map entropy)

open UsbSerial

/-- C1: for every driver state and boolean `polled`, `tick` emits a
Read event iff `read_enabled && polled`, and when it does it emits
exactly one: the Read count of the emitted event list is 1 when
`read_enabled && polled` and 0 otherwise (in particular, `polled =
false` never yields a Read event). -/
theorem tick_read_iff_enabled_and_polled (s : Serial) (polled : Bool) :
    (Event.Read ∈ (s.tick polled).1 ↔ (s.read_enabled = true ∧ polled = true)) ∧
      (s.tick polled).1.count Event.Read =
        (if s.read_enabled && polled then 1 else 0) := by
  unfold Serial.tick
  cases s.read_enabled <;> cases polled <;>
    cases h : s.write_enabled && s.port.dtr <;> simp [h]

/-- C2: for every driver state and boolean `polled`, `tick` emits a
Write event iff `write_enabled` and the DTR flow-control signal hold at
call time, and then exactly one; the count does not mention `polled`,
so emission is independent of it. -/
theorem tick_write_iff_enabled_and_dtr (s : Serial) (polled : Bool) :
    (Event.Write ∈ (s.tick polled).1 ↔
        (s.write_enabled = true ∧ s.port.dtr = true)) ∧
      (s.tick polled).1.count Event.Write =
        (if s.write_enabled && s.port.dtr then 1 else 0) := by
  unfold Serial.tick
  cases s.write_enabled <;> cases h : s.port.dtr <;>
    cases hr : s.read_enabled && polled <;> simp [hr]

/-- C6: every serial capability operation on the `Unsupported` variant
returns `Err(Error::User)`, for every input; the operations are total
functions, so none panics. -/
theorem unsupported_all_user_error (n : Nat) (input : List Nat) (e : Event) :
    Unsupported.read n = .error .User ∧
      Unsupported.write input = .error .User ∧
      Unsupported.flush = .error .User ∧
      Unsupported.enable e = .error .User ∧
      Unsupported.disable e = .error .User :=
  ⟨rfl, rfl, rfl, rfl, rfl⟩

/-- C10: the subscription flags are only changed by a `set` call naming
their kind: `set` on the other kind leaves a flag unchanged, and
`tick`, `read`, `write` and `flush` leave both flags unchanged. -/
theorem flags_frame (s : Serial) (b polled : Bool) (n : Nat)
    (input : List Nat) (p' : Port) :
    (s.set Event.Read b).write_enabled = s.write_enabled ∧
      (s.set Event.Write b).read_enabled = s.read_enabled ∧
      (s.tick polled).2 = s ∧
      ((WithSerial.read s n p').2.1.read_enabled = s.read_enabled ∧
        (WithSerial.read s n p').2.1.write_enabled = s.write_enabled) ∧
      ((WithSerial.write s input p').2.1.read_enabled = s.read_enabled ∧
        (WithSerial.write s input p').2.1.write_enabled = s.write_enabled) ∧
      ((WithSerial.flush s p').2.1.read_enabled = s.read_enabled ∧
        (WithSerial.flush s p').2.1.write_enabled = s.write_enabled) := by
  refine ⟨rfl, rfl, rfl, ?_, ?_, ?_⟩
  · unfold WithSerial.read
    rcases s.port.readResult with e | l
    · cases e <;> exact ⟨rfl, rfl⟩
    · exact ⟨rfl, rfl⟩
  · unfold WithSerial.write
    cases hd : s.port.dtr
    · exact ⟨rfl, rfl⟩
    · rcases s.port.writeResult with e | l
      · cases e <;> exact ⟨rfl, rfl⟩
      · exact ⟨rfl, rfl⟩
  · unfold WithSerial.flush
    rcases s.port.flushResult with e | u
    · exact ⟨rfl, rfl⟩
    · exact ⟨rfl, rfl⟩

/-- C3: for every non-empty buffer, when DTR is deasserted at call
time, `write` returns `Ok(0)` and performs no `write` call on the
transport. -/
theorem write_without_dtr_returns_zero (s : Serial) (input : List Nat)
    (p' : Port) (_hne : input ≠ []) (hdtr : s.port.dtr = false) :
    (WithSerial.write s input p').1 = .ok 0 ∧
      PortCall.writeCall ∉ (WithSerial.write s input p').2.2 := by
  unfold WithSerial.write
  rw [hdtr]
  simp

/-- Witness for C3 at a concrete state: the driver over `quietPort`
(DTR deasserted) with the one-byte buffer `[0]`. -/
theorem write_without_dtr_returns_zero_witness :
    (WithSerial.write (Serial.new quietPort) [0] quietPort).1 = .ok 0 ∧
      PortCall.writeCall ∉
        (WithSerial.write (Serial.new quietPort) [0] quietPort).2.2 :=
  write_without_dtr_returns_zero (Serial.new quietPort) [0] quietPort
    (by simp) rfl

/-- C4: whenever the transport reports `WouldBlock`, `read` returns
`Ok(0)`, and so does `write` (whatever the DTR line says). -/
theorem would_block_returns_zero (s : Serial) (n : Nat) (input : List Nat)
    (p' : Port) :
    (s.port.readResult = .error .WouldBlock →
        (WithSerial.read s n p').1 = .ok 0) ∧
      (s.port.writeResult = .error .WouldBlock →
        (WithSerial.write s input p').1 = .ok 0) := by
  constructor
  · intro h
    unfold WithSerial.read
    rw [h]
  · intro h
    unfold WithSerial.write
    rw [h]
    cases hd : s.port.dtr <;> rfl

/-- Witness for C4 at a concrete state: the driver over `blockedPort`,
whose read and write results are both `WouldBlock`. -/
theorem would_block_returns_zero_witness :
    (WithSerial.read (Serial.new blockedPort) 1 blockedPort).1 = .ok 0 ∧
      (WithSerial.write (Serial.new blockedPort) [1] blockedPort).1 = .ok 0 :=
  ⟨(would_block_returns_zero (Serial.new blockedPort) 1 [1] blockedPort).1 rfl,
    (would_block_returns_zero (Serial.new blockedPort) 1 [1] blockedPort).2 rfl⟩

/-- Counterexample to C5 as stated: the state obtained from a fresh
driver over `quietPort` (DTR deasserted) by a single
`set(Write, true)` — exactly what `enable(Write)` performs — is
reachable, has `write_enabled = true`, and yet DTR is false.  So the
flag being true does not require the flow-control signal. -/
theorem write_enabled_without_dtr_reachable :
    Reachable ((Serial.new quietPort).set Event.Write true) ∧
      ((Serial.new quietPort).set Event.Write true).write_enabled = true ∧
      ((Serial.new quietPort).set Event.Write true).port.dtr = false :=
  ⟨⟨quietPort, Relation.ReflTransGen.single (Step.setStep _ _ _)⟩, rfl, rfl⟩

/-- C5 (amended): the flag `write_enabled` may be true while DTR is
false, but the driver never reports write-readiness then: for every
driver state and `polled`, if DTR is false at call time then `tick`
emits no Write event, even if the flag is set. -/
theorem no_write_event_without_dtr (s : Serial) (polled : Bool)
    (hdtr : s.port.dtr = false) :
    Event.Write ∉ (s.tick polled).1 := by
  unfold Serial.tick
  rw [hdtr]
  cases s.read_enabled && polled <;> simp

/-- Witness for the amended C5 at a concrete state: flag set, DTR
false, `tick(true, …)` emits no Write event. -/
theorem no_write_event_without_dtr_witness :
    Event.Write ∉ (((Serial.new quietPort).set Event.Write true).tick true).1 :=
  no_write_event_without_dtr ((Serial.new quietPort).set Event.Write true)
    true rfl

/-- Helper for C7: running a call sequence leaves `read_enabled` at the
last value set for `Read`, or its starting value if no call names
`Read`. -/
theorem applyCalls_read_enabled (s : Serial) (calls : List SetCall) :
    (applyCalls s calls).read_enabled =
      (lastSetting Event.Read calls).getD s.read_enabled := by
  induction calls generalizing s with
  | nil => rfl
  | cons c rest ih =>
    show (applyCalls (s.set c.1 c.2) rest).read_enabled = _
    rw [ih, lastSetting]
    cases h : lastSetting Event.Read rest with
    | some b => simp
    | none =>
      obtain ⟨e, b⟩ := c
      cases e <;> simp [Serial.set]

/-- Helper for C7: running a call sequence leaves `write_enabled` at
the last value set for `Write`, or its starting value if no call names
`Write`. -/
theorem applyCalls_write_enabled (s : Serial) (calls : List SetCall) :
    (applyCalls s calls).write_enabled =
      (lastSetting Event.Write calls).getD s.write_enabled := by
  induction calls generalizing s with
  | nil => rfl
  | cons c rest ih =>
    show (applyCalls (s.set c.1 c.2) rest).write_enabled = _
    rw [ih, lastSetting]
    cases h : lastSetting Event.Write rest with
    | some b => simp
    | none =>
      obtain ⟨e, b⟩ := c
      cases e <;> simp [Serial.set]

/-- C7: for every finite sequence of enable/disable calls, each
subscription flag ends at the value of the last call naming its kind
(so repeated identical calls are idempotent and the last write wins),
and `enable`/`disable` always return `Ok(())`. -/
theorem set_calls_last_write_wins (s : Serial) (calls : List SetCall)
    (e : Event) :
    (applyCalls s calls).read_enabled =
        (lastSetting Event.Read calls).getD s.read_enabled ∧
      (applyCalls s calls).write_enabled =
        (lastSetting Event.Write calls).getD s.write_enabled ∧
      (WithSerial.enable s e).1 = .ok () ∧
      (WithSerial.disable s e).1 = .ok () :=
  ⟨applyCalls_read_enabled s calls, applyCalls_write_enabled s calls, rfl, rfl⟩

/-- C8: `fill_bytes` on a buffer of any length returns success and a
completely filled buffer, identically in the host-simulated and the
on-device implementation. -/
theorem fill_bytes_total_success (entropy : Nat → Nat) (bufLen : Nat) :
    ∃ bytes : List Nat,
      hostFillBytes entropy bufLen = .ok bytes ∧
        nordicFillBytes entropy bufLen = .ok bytes ∧
        bytes.length = bufLen :=
  ⟨(List.range bufLen).map entropy, rfl, rfl, by simp⟩

/-- C9: when exactly two buttons `i < j` trigger in one GPIOTE
interrupt occurrence, the handler pushes exactly one Button event per
triggered button, in increasing index order, so that after a later
timer interrupt the queue holds Button `i`, Button `j`, then the Timer
event, and FIFO pops dequeue them in exactly that order. -/
theorem gpiote_two_buttons_fifo_order (triggered pressed : Fin 4 → Bool)
    (i j : Fin 4) (t : Nat) (hij : i < j)
    (htrig : ∀ k, triggered k = true ↔ (k = i ∨ k = j)) :
    timerHandler t (gpioteHandler triggered pressed []) =
        [BoardEvent.Button i.val (pressed i), BoardEvent.Button j.val (pressed j),
          BoardEvent.Timer t] ∧
      Events.pop (timerHandler t (gpioteHandler triggered pressed [])) =
        some (BoardEvent.Button i.val (pressed i),
          [BoardEvent.Button j.val (pressed j), BoardEvent.Timer t]) := by
  have htrig' : triggered = fun k => decide (k = i ∨ k = j) := by
    funext k
    cases h : triggered k
    · have hk : ¬(k = i ∨ k = j) := fun hor => by
        have := (htrig k).mpr hor
        rw [h] at this
        exact Bool.false_ne_true this
      exact (decide_eq_false hk).symm
    · exact (decide_eq_true ((htrig k).mp h)).symm
  subst htrig'
  fin_cases i <;> fin_cases j <;>
    first
      | exact absurd hij (by decide)
      | exact ⟨rfl, rfl⟩

/-- Witness for C9 at a concrete interrupt occurrence: buttons 0 and 1
trigger (both pressed), followed by timer 7. -/
theorem gpiote_two_buttons_fifo_order_witness :
    timerHandler 7
        (gpioteHandler (fun k => decide (k = 0 ∨ k = 1)) (fun _ => true) []) =
        [BoardEvent.Button 0 true, BoardEvent.Button 1 true, BoardEvent.Timer 7] ∧
      Events.pop (timerHandler 7
          (gpioteHandler (fun k => decide (k = 0 ∨ k = 1)) (fun _ => true) [])) =
        some (BoardEvent.Button 0 true,
          [BoardEvent.Button 1 true, BoardEvent.Timer 7]) :=
  gpiote_two_buttons_fifo_order (fun k => decide (k = 0 ∨ k = 1))
    (fun _ => true) 0 1 7 (by decide) (by decide)

end Wasefire
